import Mathlib

/-!
Verification development for the query-execution and conversation core of the
snowcore_parts_intelligence dashboard.

The embedded modules are:
* `src/streamlit/utils/query_registry.py` — a process-wide registry of named
  queries (`register_query`, `get_registry`).  Because the relevant behaviour
  of `get_registry` is Python's shallow `dict(...)` copy, the registry is
  modelled with an explicit object heap: entry dicts and top-level dicts live
  at numeric addresses, and `_REGISTRY` is the dict object at address 0.
* `src/streamlit/utils/data_loader.py` — `run_queries_parallel`, which fans a
  mapping of name → SQL text out over a thread pool and collects
  `future.result()` in completion order.  Completion order is modelled as an
  explicit `order` argument (a permutation of the batch); the data-access
  service is a function `String → Except ε α`.
* `src/streamlit/utils/agent.py` — `query_agent`, `_parse_agent_response`,
  `_mock_agent_response` and `_handle_user_message`.  The outcome of the
  `_snowflake` import and of the HTTP call is modelled by the `ApiOutcome`
  environment type; everything downstream of it is translated directly.

Machine integers do not occur on any modelled path; Python strings are `String`
and Python dicts are association lists with Python dict-assignment semantics
(`dictAssign`: replace in place when the key exists, append otherwise).
-/

namespace SnowCore

/-- Python dict assignment `d[k] = v` on an association list: if `k` is
already bound its binding is updated in place (insertion position kept),
otherwise the new binding is appended at the end. -/
def dictAssign {β : Type} (d : List (String × β)) (k : String) (v : β) :
    List (String × β) :=
  if (d.lookup k).isSome then
    d.map (fun p => if p.1 == k then (k, v) else p)
  else
    d ++ [(k, v)]

/-! ## Query registry (`src/streamlit/utils/query_registry.py`)

`_REGISTRY: Dict[str, Dict[str, str]] = {}` maps a key to an entry dict
`{"sql": ..., "description": ...}`.  Entry dicts are heap objects (Python
mutable dicts), addressed by their index in `entryHeap`; top-level dicts
(the registry itself and every snapshot returned by `get_registry`) are heap
objects addressed by their index in `dictHeap`.  `_REGISTRY` is the dict at
address 0. -/

/-- One registry entry dict `{"sql": ..., "description": ...}`. -/
structure Entry where
  sql : String
  description : String
deriving DecidableEq, Repr

/-- The Python-level state: a heap of entry dicts and a heap of top-level
dicts, each top-level dict binding keys to entry-heap addresses. -/
structure RegState where
  entryHeap : List Entry
  dictHeap : List (List (String × Nat))
deriving DecidableEq, Repr

/-- Interpreter start state: the module-level `_REGISTRY = {}` is the (only)
top-level dict, at address 0. -/
def initState : RegState := ⟨[], [[]]⟩

/-- Read the top-level dict object at address `a`. -/
def getDict (s : RegState) (a : Nat) : List (String × Nat) :=
  (s.dictHeap.get? a).getD []

/-- Dereference an entry-heap address. -/
def getEntry (s : RegState) (a : Nat) : Option Entry :=
  s.entryHeap.get? a

/-- `_REGISTRY[key]`, dereferenced: the entry dict currently bound to `key`
in the registry (the dict at address 0). -/
def lookupEntry (s : RegState) (key : String) : Option Entry :=
  match (getDict s 0).lookup key with
  | some a => getEntry s a
  | none => none

/-- `register_query(key, sql, description)`.  Faithful to the source:
raises (`Except.error`) when `key` is bound to an entry whose `"sql"` field
differs from `sql`; otherwise allocates a fresh entry dict
`{"sql": sql, "description": description}`, binds `key` to it in `_REGISTRY`,
and returns `sql`. -/
def register_query (s : RegState) (key sql description : String) :
    Except String String × RegState :=
  match lookupEntry s key with
  | some e =>
    if e.sql ≠ sql then
      (Except.error ("Query key \x27" ++ key ++
        "\x27 already registered with different SQL."), s)
    else
      let addr := s.entryHeap.length
      (Except.ok sql,
        { entryHeap := s.entryHeap ++ [⟨sql, description⟩],
          dictHeap := s.dictHeap.set 0 (dictAssign (getDict s 0) key addr) })
  | none =>
    let addr := s.entryHeap.length
    (Except.ok sql,
      { entryHeap := s.entryHeap ++ [⟨sql, description⟩],
        dictHeap := s.dictHeap.set 0 (dictAssign (getDict s 0) key addr) })

/-- `get_registry()` = `dict(_REGISTRY)`: allocates a fresh top-level dict
holding the same key → entry-address bindings as the registry, and returns
its address together with the new state. -/
def get_registry (s : RegState) : Nat × RegState :=
  (s.dictHeap.length, { s with dictHeap := s.dictHeap ++ [getDict s 0] })

/-- Caller-side mutation `d[k] = a` on the top-level dict at address `da`
(used to express what a caller can do to the value `get_registry` returned). -/
def setDictKey (s : RegState) (da : Nat) (k : String) (a : Nat) : RegState :=
  { s with dictHeap := s.dictHeap.set da (dictAssign (getDict s da) k a) }

/-- Caller-side in-place mutation `e["sql"] = v` of the entry dict at
address `a`. -/
def setEntrySql (s : RegState) (a : Nat) (v : String) : RegState :=
  match s.entryHeap.get? a with
  | some e => { s with entryHeap := s.entryHeap.set a { e with sql := v } }
  | none => s

/-! ## Parallel query executor (`src/streamlit/utils/data_loader.py`)

`run_queries_parallel(session, query_map)` submits `run_one(name, sql)`
(= `session.sql(sql).to_pandas()`) for every item of `query_map` to a
`ThreadPoolExecutor(max_workers=min(8, len(query_map)))`, then collects
`future.result()` over `as_completed(futures)` into a result dict.  The
data-access service is modelled as `session : String → Except ε α`; the
order in which `as_completed` yields the futures is an explicit `order`
argument ranging over permutations of the batch. -/

/-- How a call to the executor can fail.  `valueError` is the `ValueError`
that `ThreadPoolExecutor` raises when `max_workers = min(8, len(query_map))`
is 0; `queryError e` is the underlying query exception `e`, re-raised
unchanged by `future.result()` — note it carries no query name and no
wrapper. -/
inductive ExecError (ε : Type) where
  | valueError : ExecError ε
  | queryError : ε → ExecError ε
deriving DecidableEq, Repr

/-- The `for future in as_completed(futures)` loop: walk the futures in
completion order, storing each `future.result()` under its name; the first
future whose `result()` raises aborts the loop and propagates that raw
exception. -/
def collectResults {ε α : Type} (session : String → Except ε α) :
    List (String × String) → List (String × α) →
    Except (ExecError ε) (List (String × α))
  | [], results => Except.ok results
  | (name, sql) :: rest, results =>
    match session sql with
    | Except.error e => Except.error (ExecError.queryError e)
    | Except.ok v => collectResults session rest (dictAssign results name v)

/-- `run_queries_parallel(session, query_map)`, with the completion order of
`as_completed` made explicit as `order` (a permutation of `query_map`'s
items).  Constructing `ThreadPoolExecutor(max_workers=min(8, len(query_map)))`
raises `ValueError` when that bound is 0. -/
def run_queries_parallel {ε α : Type} (session : String → Except ε α)
    (query_map : List (String × String)) (order : List (String × String)) :
    Except (ExecError ε) (List (String × α)) :=
  if min 8 query_map.length = 0 then Except.error ExecError.valueError
  else collectResults session order []

/-- The first failure the completion-order walk observes, if any. -/
def firstFailure {ε α : Type} (session : String → Except ε α) :
    List (String × String) → Option ε
  | [] => none
  | p :: rest =>
    match session p.2 with
    | Except.error e => some e
    | Except.ok _ => firstFailure session rest

/-! ## Agent client (`src/streamlit/utils/agent.py`) -/

/-- One event of the streaming agent response: the `"event"` discriminator,
`data.get("text")` and `data.get("message")`. -/
structure AgentEvent where
  event : String
  dataText : Option String
  dataMessage : Option String
deriving DecidableEq, Repr

/-- The JSON value handed to `_parse_agent_response`: a list of events, a
plain object (with its optional `"message"` and `"response"` fields), or
anything else. -/
inductive AgentValue where
  | events : List AgentEvent → AgentValue
  | obj : Option String → Option String → AgentValue
  | other : AgentValue
deriving DecidableEq, Repr

/-- The dict `query_agent` returns: either `{"response": ..,
"tool_results": ..}` (with `tool_results` `None` or a non-empty list) or
`{"error": ..}`. -/
inductive AgentResult where
  | success : String → Option (List String) → AgentResult
  | failure : String → AgentResult
deriving DecidableEq, Repr

/-- The event loop of `_parse_agent_response`: `text` events accumulate into
`text_parts`, `tool_result` and `analyst_result` events into `tool_results`,
and an `error` event returns immediately with `data.get("message",
"Unknown error")`.  At the end the response is `"".join(text_parts)` and
`tool_results if tool_results else None`. -/
def parseEventsLoop : List AgentEvent → List String → List String → AgentResult
  | [], texts, tools =>
    AgentResult.success (String.join texts)
      (if tools.isEmpty then none else some tools)
  | e :: rest, texts, tools =>
    if e.event = "text" then
      parseEventsLoop rest (texts ++ [e.dataText.getD ""]) tools
    else if e.event = "tool_result" then
      parseEventsLoop rest texts (tools ++ [e.dataText.getD ""])
    else if e.event = "analyst_result" then
      parseEventsLoop rest texts (tools ++ [e.dataText.getD ""])
    else if e.event = "error" then
      AgentResult.failure (e.dataMessage.getD "Unknown error")
    else
      parseEventsLoop rest texts tools

/-- `_parse_agent_response(result)`: dispatch on the shape of `result`.
A dict contributes `result["message"]`, else `result["response"]`, else
nothing, as the only text part; any other non-list value contributes
nothing. -/
def parse_agent_response (result : AgentValue) : AgentResult :=
  match result with
  | AgentValue.events es => parseEventsLoop es [] []
  | AgentValue.obj message response =>
    let texts : List String :=
      match message with
      | some m => [m]
      | none =>
        match response with
        | some r => [r]
        | none => []
    AgentResult.success (String.join texts) none
  | AgentValue.other => AgentResult.success "" none

/-- Python `needle in hay` for non-empty `needle`. -/
def containsSubstr (hay needle : String) : Bool :=
  (hay.splitOn needle).length != 1

/-- `_mock_agent_response(question)`: the keyword-matched canned responses
used when `_snowflake` cannot be imported. -/
def mock_agent_response (question : String) : AgentResult :=
  let ql := question.toLower
  if containsSubstr ql "risk" && containsSubstr ql "supplier" then
    AgentResult.success ("Based on the supplier risk assessment, SUP001 (Arctic Components) has a composite risk score of 0.12 (Low Risk) with excellent supply continuity at 0.92. This supplier is recommended for strategic partnership.") none
  else if containsSubstr ql "maverick" || containsSubstr ql "off-contract" then
    AgentResult.success ("Current maverick spend is approximately $1.2M (15% of total procurement). The highest maverick spend is with non-preferred suppliers SUP005 and SUP010. Recommend implementing contract compliance monitoring.") none
  else if containsSubstr ql "consolidat" then
    AgentResult.success ("There are 6 active consolidation scenarios with total projected savings of $1.55M. The highest ROI scenario is \x27NA Fastener Consolidation\x27 (CONS001) at 533% ROI with projected savings of $285K.") none
  else if containsSubstr ql "fda" || containsSubstr ql "compliance" then
    AgentResult.success ("FDA compliance requires audit trails for firmware updates, electronic signatures, and verification of access controls. Parts must meet 21 CFR Part 11 requirements for electronic records.") none
  else
    AgentResult.success ("I can help you with questions about parts, suppliers, inventory, compliance, procurement, and consolidation scenarios. Your question was: \x27" ++ question ++ "\x27") none

/-- The environment `query_agent` runs in, i.e. the outcome of the
`import _snowflake` attempt and of the `send_snow_api_request` call:
`importError` — `_snowflake` is absent (local run, mock path);
`exn m` — the request (or body parsing) raised an exception rendered as `m`;
`httpError st body` — the call returned a non-200 status with that body;
`ok v` — status 200 with `v` the decoded response body. -/
inductive ApiOutcome where
  | importError : ApiOutcome
  | exn : String → ApiOutcome
  | httpError : Int → String → ApiOutcome
  | ok : AgentValue → ApiOutcome
deriving DecidableEq, Repr

/-- `query_agent(session, question, context)`: mock response when
`_snowflake` is missing; otherwise one API call whose outcome is classified
exactly as the source does — `{"error": f"Agent request failed: {e}"}` on an
exception, `{"error": f"API Error ({status}): {body}"}` on a non-200 status,
and `_parse_agent_response(result)` on a 200. -/
def query_agent (env : ApiOutcome) (question : String) :
    AgentResult :=
  match env with
  | ApiOutcome.importError => mock_agent_response question
  | ApiOutcome.exn m => AgentResult.failure ("Agent request failed: " ++ m)
  | ApiOutcome.httpError st body =>
    AgentResult.failure ("API Error (" ++ toString st ++ "): " ++ body)
  | ApiOutcome.ok v => parse_agent_response v

/-- One chat turn `{"role": ..., "content": ...}`. -/
structure Turn where
  role : String
  content : String
deriving DecidableEq, Repr

/-- The response-content construction of `_handle_user_message`: on an
error dict the content is `f"**Error:** {result[\x27error\x27]}"`; otherwise
the response text, followed by a `**Tool Results:**` section of fenced
blocks when `result.get("tool_results")` is truthy (a non-empty list). -/
def build_response_content (result : AgentResult) : String :=
  match result with
  | AgentResult.failure e => "**Error:** " ++ e
  | AgentResult.success resp tools =>
    match tools with
    | some trs =>
      if trs.isEmpty then resp
      else
        resp ++ "\n\n**Tool Results:**\n" ++
          String.join (trs.map (fun tr => "```\n" ++ tr ++ "\n```\n"))
    | none => resp

/-- `_handle_user_message(prompt, thread, session, persona_context)`:
append the user turn, call `query_agent`, append the assistant turn built
from its result.  The environment `env` stands for the session/backend the
agent call runs against. -/
def handle_user_message (env : ApiOutcome) (prompt : String)
    (thread : List Turn) : List Turn :=
  let thread1 := thread ++ [⟨"user", prompt⟩]
  let result := query_agent env prompt
  thread1 ++ [⟨"assistant", build_response_content result⟩]

/-- The payloads of the `text` events of an event list, in emission order
(specification-side description used to characterise `parseEventsLoop`). -/
def textPayloads (es : List AgentEvent) : List String :=
  es.filterMap (fun e =>
    if e.event = "text" then some (e.dataText.getD "") else none)

/-- The payloads of the `tool_result` and `analyst_result` events of an
event list, in emission order. -/
def toolPayloads (es : List AgentEvent) : List String :=
  es.filterMap (fun e =>
    if e.event = "tool_result" ∨ e.event = "analyst_result" then
      some (e.dataText.getD "")
    else none)

/-! ## Concrete fixtures used to exercise the definitions -/

/-- A data-access service on which every query succeeds. -/
def okSession : String → Except String String :=
  fun q => Except.ok (q ++ "!")

/-- A data-access service that fails on the query text `bad`. -/
def failSession : String → Except String String :=
  fun q => if q = "bad" then Except.error "boom" else Except.ok "fine"

/-- A data-access service on which every query fails with the same error. -/
def boomSession : String → Except String String :=
  fun _ => Except.error "boom"

/-- A small error-free event stream with interleaved text and tool events. -/
def demoEvents : List AgentEvent :=
  [⟨"text", some "Hello ", none⟩,
   ⟨"tool_result", some "T1", none⟩,
   ⟨"text", some "world", none⟩,
   ⟨"analyst_result", some "A1", none⟩,
   ⟨"status", none, none⟩]

/-! ## Helper lemmas about `dictAssign` and association-list lookup -/

theorem lookup_eq_none_of_keys {β : Type} (d : List (String × β)) (k : String)
    (h : k ∉ d.map Prod.fst) : d.lookup k = none := by
  rw [List.lookup_eq_none_iff]
  intro p hp
  simp only [bne_iff_ne, ne_eq]
  rintro rfl
  exact h (List.mem_map_of_mem Prod.fst hp)

theorem mem_keys_of_lookup_isSome {β : Type} (d : List (String × β))
    (k : String) (h : (d.lookup k).isSome) : k ∈ d.map Prod.fst := by
  rw [List.lookup_isSome_iff] at h
  obtain ⟨p, hp, hk⟩ := h
  rw [beq_iff_eq] at hk
  rw [hk]
  exact List.mem_map_of_mem Prod.fst hp

theorem dictAssign_of_not_mem {β : Type} (d : List (String × β)) (k : String)
    (v : β) (h : k ∉ d.map Prod.fst) : dictAssign d k v = d ++ [(k, v)] := by
  unfold dictAssign
  rw [lookup_eq_none_of_keys d k h]
  rfl

theorem lookup_map_assign {β : Type} (d : List (String × β)) (k : String)
    (v : β) (h : (d.lookup k).isSome) :
    (d.map fun p => if p.1 == k then (k, v) else p).lookup k = some v := by
  induction d with
  | nil => simp at h
  | cons p t ih =>
    obtain ⟨a, b⟩ := p
    by_cases hak : a = k
    · subst hak
      simp [List.lookup_cons]
    · have h1 : (a == k) = false := beq_eq_false_iff_ne.mpr hak
      have h2 : (k == a) = false := beq_eq_false_iff_ne.mpr (Ne.symm hak)
      simp only [List.lookup_cons, h1, h2, List.map_cons,
        Bool.false_eq_true, ite_false] at h ⊢
      exact ih h

theorem dictAssign_lookup_self {β : Type} (d : List (String × β)) (k : String)
    (v : β) : (dictAssign d k v).lookup k = some v := by
  unfold dictAssign
  by_cases h : (d.lookup k).isSome
  · rw [if_pos h]
    exact lookup_map_assign d k v h
  · rw [if_neg h, List.lookup_append,
      Option.not_isSome_iff_eq_none.mp h]
    simp

theorem dictAssign_keys {β : Type} (d : List (String × β)) (k : String)
    (v : β) : (dictAssign d k v).map Prod.fst =
      if (d.lookup k).isSome then d.map Prod.fst
      else d.map Prod.fst ++ [k] := by
  unfold dictAssign
  by_cases h : (d.lookup k).isSome
  · rw [if_pos h, if_pos h, List.map_map]
    apply List.map_congr_left
    intro p _
    by_cases hp : p.1 = k
    · simp [Function.comp, hp]
    · simp [Function.comp, beq_eq_false_iff_ne.mpr hp]
  · rw [if_neg h, if_neg h]
    simp

theorem count_eq_one_of_nodup_mem (l : List String) (k : String)
    (h1 : l.Nodup) (h2 : k ∈ l) : l.count k = 1 := by
  induction l with
  | nil => simp at h2
  | cons a t ih =>
    rw [List.nodup_cons] at h1
    by_cases hak : a = k
    · subst hak
      rw [List.count_cons_self, List.count_eq_zero.mpr h1.1]
    · have hmem : k ∈ t := by
        rcases List.mem_cons.mp h2 with h | h
        · exact absurd h.symm hak
        · exact h
      rw [List.count_cons]
      simp [beq_eq_false_iff_ne.mpr hak, ih h1.2 hmem]

theorem lookup_isSome_of_mem_keys {β : Type} (d : List (String × β))
    (k : String) (h : k ∈ d.map Prod.fst) : (d.lookup k).isSome := by
  rw [List.lookup_isSome_iff]
  obtain ⟨p, hp, hk⟩ := List.mem_map.mp h
  refine ⟨p, hp, ?_⟩
  rw [hk]
  exact beq_self_eq_true k

/-! ## Helper lemmas about `register_query` and `get_registry` -/

theorem getDict_set_zero (s : RegState) (D : List (String × Nat))
    (hlen : 0 < s.dictHeap.length) (eh : List Entry) :
    getDict { entryHeap := eh, dictHeap := s.dictHeap.set 0 D } 0 = D := by
  unfold getDict
  rw [List.get?_eq_getElem?]
  rw [List.getElem?_set_self (by simpa using hlen)]
  rfl

theorem register_query_ok (s : RegState) (key text desc : String)
    (h : ∀ e, lookupEntry s key = some e → e.sql = text) :
    register_query s key text desc =
      (Except.ok text,
        { entryHeap := s.entryHeap ++ [⟨text, desc⟩],
          dictHeap := s.dictHeap.set 0
            (dictAssign (getDict s 0) key s.entryHeap.length) }) := by
  unfold register_query
  cases hl : lookupEntry s key with
  | none => rfl
  | some e =>
    dsimp only
    rw [if_neg (fun hne => hne (h e hl))]

theorem lookupEntry_after_register (s : RegState) (key text desc : String)
    (hlen : 0 < s.dictHeap.length)
    (h : ∀ e, lookupEntry s key = some e → e.sql = text) :
    lookupEntry (register_query s key text desc).2 key =
      some ⟨text, desc⟩ := by
  rw [register_query_ok s key text desc h]
  unfold lookupEntry
  simp only [getDict_set_zero s _ hlen, dictAssign_lookup_self, getEntry]
  rw [List.get?_eq_getElem?]
  exact List.getElem?_concat_length _ _

theorem register_keys_count (s : RegState) (key text desc : String)
    (hlen : 0 < s.dictHeap.length)
    (hnd : ((getDict s 0).map Prod.fst).Nodup)
    (h : ∀ e, lookupEntry s key = some e → e.sql = text) :
    ((getDict (register_query s key text desc).2 0).map Prod.fst).count key
      = 1 ∧
    ((getDict (register_query s key text desc).2 0).map Prod.fst).Nodup ∧
    0 < (register_query s key text desc).2.dictHeap.length := by
  rw [register_query_ok s key text desc h]
  rw [getDict_set_zero s _ hlen, dictAssign_keys]
  refine ⟨?_, ?_, by simpa using hlen⟩
  · by_cases hm : ((getDict s 0).lookup key).isSome
    · rw [if_pos hm]
      exact count_eq_one_of_nodup_mem _ _ hnd (mem_keys_of_lookup_isSome _ _ hm)
    · rw [if_neg hm]
      have hnot : key ∉ (getDict s 0).map Prod.fst :=
        fun hk => hm (lookup_isSome_of_mem_keys _ _ hk)
      rw [List.count_append, List.count_eq_zero.mpr hnot,
        List.count_singleton_self]
  · by_cases hm : ((getDict s 0).lookup key).isSome
    · rw [if_pos hm]
      exact hnd
    · rw [if_neg hm]
      have hnot : key ∉ (getDict s 0).map Prod.fst :=
        fun hk => hm (lookup_isSome_of_mem_keys _ _ hk)
      exact hnd.append (List.nodup_singleton key)
        (fun a ha hb => hnot (by rwa [List.mem_singleton.mp hb] at ha))

theorem collectResults_all_ok {ε α : Type} (session : String → Except ε α) :
    ∀ (order : List (String × String)) (acc : List (String × α)),
      (acc.map Prod.fst ++ order.map Prod.fst).Nodup →
      (∀ p ∈ order, ∃ v, session p.2 = Except.ok v) →
      ∃ res, collectResults session order acc = Except.ok res ∧
        res.map Prod.fst = acc.map Prod.fst ++ order.map Prod.fst ∧
        (∀ n w, acc.lookup n = some w → res.lookup n = some w) ∧
        (∀ p ∈ order, ∃ v, session p.2 = Except.ok v ∧
          res.lookup p.1 = some v) := by
  intro order
  induction order with
  | nil =>
    intro acc hnd hok
    exact ⟨acc, rfl, by simp, fun n w h => h, by simp⟩
  | cons p rest ih =>
    intro acc hnd hok
    obtain ⟨name, sql⟩ := p
    obtain ⟨v, hv⟩ := hok (name, sql) (List.mem_cons_self _ _)
    have hname : name ∉ acc.map Prod.fst := by
      rw [List.nodup_append] at hnd
      intro hmem
      exact hnd.2.2 hmem (List.mem_cons_self _ _)
    have hassign : dictAssign acc name v = acc ++ [(name, v)] :=
      dictAssign_of_not_mem _ _ _ hname
    have hnd' :
        ((acc ++ [(name, v)]).map Prod.fst ++ rest.map Prod.fst).Nodup := by
      simpa [List.append_assoc] using hnd
    obtain ⟨res, hres, hkeys, hpres, hitems⟩ :=
      ih (acc ++ [(name, v)]) hnd'
        (fun q hq => hok q (List.mem_cons_of_mem _ hq))
    refine ⟨res, ?_, ?_, ?_, ?_⟩
    · simp only [collectResults, hv, hassign]
      exact hres
    · rw [hkeys]
      simp [List.append_assoc]
    · intro n w hw
      apply hpres
      rw [List.lookup_append, hw]
      rfl
    · intro q hq
      rcases List.mem_cons.mp hq with hq0 | hq'
      · subst hq0
        refine ⟨v, hv, ?_⟩
        apply hpres
        rw [List.lookup_append, lookup_eq_none_of_keys _ _ hname]
        simp
      · exact hitems q hq'

theorem collectResults_firstFailure {ε α : Type} (session : String → Except ε α) :
    ∀ (order : List (String × String)) (acc : List (String × α)) (e : ε),
      firstFailure session order = some e →
      collectResults session order acc =
        Except.error (ExecError.queryError e) := by
  intro order
  induction order with
  | nil =>
    intro acc e h
    simp [firstFailure] at h
  | cons p rest ih =>
    intro acc e h
    obtain ⟨name, sql⟩ := p
    cases hs : session sql with
    | error e0 =>
      simp only [firstFailure, hs] at h
      cases h
      simp only [collectResults, hs]
    | ok v =>
      simp only [firstFailure, hs] at h
      simp only [collectResults, hs]
      exact ih _ e h

theorem parseEventsLoop_no_error :
    ∀ (es : List AgentEvent) (texts tools : List String),
      (∀ e ∈ es, e.event ≠ "error") →
      parseEventsLoop es texts tools =
        AgentResult.success (String.join (texts ++ textPayloads es))
          (if (tools ++ toolPayloads es).isEmpty then none
           else some (tools ++ toolPayloads es)) := by
  intro es
  induction es with
  | nil =>
    intro texts tools h
    simp [parseEventsLoop, textPayloads, toolPayloads]
  | cons e rest ih =>
    intro texts tools h
    have hrest : ∀ x ∈ rest, x.event ≠ "error" :=
      fun x hx => h x (List.mem_cons_of_mem _ hx)
    have herr : e.event ≠ "error" := h e (List.mem_cons_self _ _)
    by_cases h1 : e.event = "text"
    · rw [show parseEventsLoop (e :: rest) texts tools =
          parseEventsLoop rest (texts ++ [e.dataText.getD ""]) tools from by
        simp [parseEventsLoop, h1]]
      rw [ih _ _ hrest]
      simp [textPayloads, toolPayloads, h1, List.append_assoc]
    · by_cases h2 : e.event = "tool_result"
      · rw [show parseEventsLoop (e :: rest) texts tools =
            parseEventsLoop rest texts (tools ++ [e.dataText.getD ""]) from by
          simp [parseEventsLoop, h1, h2]]
        rw [ih _ _ hrest]
        simp [textPayloads, toolPayloads, h1, h2, List.append_assoc]
      · by_cases h3 : e.event = "analyst_result"
        · rw [show parseEventsLoop (e :: rest) texts tools =
              parseEventsLoop rest texts (tools ++ [e.dataText.getD ""]) from by
            simp [parseEventsLoop, h1, h2, h3]]
          rw [ih _ _ hrest]
          simp [textPayloads, toolPayloads, h1, h2, h3, List.append_assoc]
        · rw [show parseEventsLoop (e :: rest) texts tools =
              parseEventsLoop rest texts tools from by
            simp [parseEventsLoop, h1, h2, h3, herr]]
          rw [ih _ _ hrest]
          simp [textPayloads, toolPayloads, h1, h2, h3]

/-! ## Claim theorems -/

/-- Claim C1: for every non-empty batch mapping (as a duplicate-free
association list) in which every query succeeds, `run_queries_parallel`
returns a mapping whose key set is exactly the key set of the batch (a
permutation of it, whatever completion order `as_completed` produced), and
the value stored under each name is the result of executing that name's
query text against the data-access service. -/
theorem run_batch_complete {ε α : Type} (session : String → Except ε α)
    (query_map order : List (String × String))
    (hne : query_map ≠ [])
    (hnd : (query_map.map Prod.fst).Nodup)
    (hperm : order.Perm query_map)
    (hok : ∀ p ∈ query_map, ∃ v, session p.2 = Except.ok v) :
    ∃ res, run_queries_parallel session query_map order = Except.ok res ∧
      (res.map Prod.fst).Perm (query_map.map Prod.fst) ∧
      ∀ p ∈ query_map, ∃ v, session p.2 = Except.ok v ∧
        res.lookup p.1 = some v := by
  have hmin : ¬ (min 8 query_map.length = 0) := by
    simp [Nat.min_eq_zero_iff, List.length_eq_zero, hne]
  have hndo : (order.map Prod.fst).Nodup :=
    ((hperm.map Prod.fst).nodup_iff).mpr hnd
  obtain ⟨res, hres, hkeys, _, hitems⟩ :=
    collectResults_all_ok session order [] (by simpa using hndo)
      (fun p hp => hok p (hperm.subset hp))
  refine ⟨res, ?_, ?_, ?_⟩
  · rw [run_queries_parallel, if_neg hmin]
    exact hres
  · rw [hkeys]
    simpa using hperm.map Prod.fst
  · intro p hp
    exact hitems p (hperm.mem_iff.mpr hp)

/-- Witness for C1: a concrete two-query batch, completed in the order
opposite to its declaration order, yields both results under the right
names. -/
theorem run_batch_complete_witness :
    ([("a", "qa"), ("b", "qb")] : List (String × String)) ≠ [] ∧
    (([("a", "qa"), ("b", "qb")] : List (String × String)).map
      Prod.fst).Nodup ∧
    ([("b", "qb"), ("a", "qa")] : List (String × String)).Perm
      [("a", "qa"), ("b", "qb")] ∧
    (∀ p ∈ ([("a", "qa"), ("b", "qb")] : List (String × String)),
      ∃ v, okSession p.2 = Except.ok v) ∧
    ∃ res, run_queries_parallel okSession [("a", "qa"), ("b", "qb")]
        [("b", "qb"), ("a", "qa")] = Except.ok res ∧
      (res.map Prod.fst).Perm
        (([("a", "qa"), ("b", "qb")] : List (String × String)).map
          Prod.fst) ∧
      ∀ p ∈ ([("a", "qa"), ("b", "qb")] : List (String × String)),
        ∃ v, okSession p.2 = Except.ok v ∧ res.lookup p.1 = some v :=
  ⟨by decide, by decide, by decide,
    fun p _ => ⟨p.2 ++ "!", rfl⟩,
    run_batch_complete okSession [("a", "qa"), ("b", "qb")]
      [("b", "qb"), ("a", "qa")] (by decide) (by decide) (by decide)
      (fun p _ => ⟨p.2 ++ "!", rfl⟩)⟩

/-- Counterexample to claim C2 as stated: the source re-raises the query's
own exception unchanged, so the failure carries no `BatchQueryError` wrapper
and does not identify the failing name.  Two single-query batches whose only
difference is the name of the failing query produce byte-identical failures
(the raw error `boom`), so the failure cannot identify which name caused
it. -/
theorem run_batch_error_lacks_name :
    run_queries_parallel boomSession [("a", "qa")] [("a", "qa")] =
      run_queries_parallel boomSession [("b", "qb")] [("b", "qb")] ∧
    run_queries_parallel boomSession [("a", "qa")] [("a", "qa")] =
      Except.error (ExecError.queryError "boom") ∧
    ("a" : String) ≠ "b" := by
  refine ⟨rfl, rfl, by decide⟩

/-- Claim C2 as amended: for every batch in which the completion-order walk
observes a failure, the whole `run_queries_parallel` call fails by
propagating the first observed failure's raw exception (no wrapper, no
name), and no partial mapping of already-completed sibling results is
returned. -/
theorem run_batch_failfast {ε α : Type} (session : String → Except ε α)
    (query_map order : List (String × String)) (e : ε)
    (hne : query_map ≠ [])
    (_hperm : order.Perm query_map)
    (hf : firstFailure session order = some e) :
    run_queries_parallel session query_map order =
      (Except.error (ExecError.queryError e) :
        Except (ExecError ε) (List (String × α))) := by
  have hmin : ¬ (min 8 query_map.length = 0) := by
    simp [Nat.min_eq_zero_iff, List.length_eq_zero, hne]
  rw [run_queries_parallel, if_neg hmin]
  exact collectResults_firstFailure session order [] e hf

/-- Witness for C2 (amended): a three-query batch whose middle query fails
makes the whole call fail with exactly that raw error. -/
theorem run_batch_failfast_witness :
    ([("a", "ok1"), ("b", "bad"), ("c", "ok2")] :
      List (String × String)) ≠ [] ∧
    ([("a", "ok1"), ("b", "bad"), ("c", "ok2")] :
      List (String × String)).Perm
      [("a", "ok1"), ("b", "bad"), ("c", "ok2")] ∧
    firstFailure failSession [("a", "ok1"), ("b", "bad"), ("c", "ok2")] =
      some "boom" ∧
    run_queries_parallel failSession
      [("a", "ok1"), ("b", "bad"), ("c", "ok2")]
      [("a", "ok1"), ("b", "bad"), ("c", "ok2")] =
      (Except.error (ExecError.queryError "boom") :
        Except (ExecError String) (List (String × String))) :=
  ⟨by decide, List.Perm.refl _, by decide,
    run_batch_failfast failSession _ _ "boom" (by decide)
      (List.Perm.refl _) (by decide)⟩

/-- Claim C3 (code bug): the spec promises that an empty batch returns an
empty mapping without failing, but the source constructs
`ThreadPoolExecutor(max_workers=min(8, len(query_map)))`, and with
`len(query_map) = 0` that constructor raises
`ValueError("max_workers must be greater than 0")` before any work is
scheduled.  The embedded code therefore fails on the empty batch. -/
theorem run_batch_empty_raises :
    run_queries_parallel okSession ([] : List (String × String)) [] =
      Except.error ExecError.valueError := rfl

/-- Claim C4: for every environment, question and thread state, one call to
`_handle_user_message` appends exactly two turns — first one `user` turn
whose content is the question, then one `assistant` turn — whether the
agent call succeeds or fails. -/
theorem handle_user_message_two_turns (env : ApiOutcome) (prompt : String)
    (thread : List Turn) :
    ∃ c : String, handle_user_message env prompt thread =
      thread ++ [⟨"user", prompt⟩, ⟨"assistant", c⟩] := by
  refine ⟨build_response_content (query_agent env prompt), ?_⟩
  unfold handle_user_message
  rw [List.append_assoc]
  rfl

/-- Claim C5: if `key` is registered with text `A`, registering the same
key with a different text `B` fails with the registry-conflict error
(`ValueError` carrying the conflict message, the source's realisation of
`RegistryConflict`), and the text stored for that key is still `A`
afterwards — the failing call leaves the state unchanged. -/
theorem register_query_conflict (s : RegState) (key A B d d2 : String)
    (hA : lookupEntry s key = some ⟨A, d⟩) (hne : A ≠ B) :
    register_query s key B d2 =
      (Except.error ("Query key \x27" ++ key ++
        "\x27 already registered with different SQL."), s) ∧
    lookupEntry (register_query s key B d2).2 key = some ⟨A, d⟩ := by
  have hmain : register_query s key B d2 =
      (Except.error ("Query key \x27" ++ key ++
        "\x27 already registered with different SQL."), s) := by
    unfold register_query
    rw [hA]
    dsimp only
    rw [if_pos hne]
  exact ⟨hmain, by rw [hmain]; exact hA⟩

/-- Witness for C5: registering `Q ↦ A` then `Q ↦ B` fails and leaves
`A` stored. -/
theorem register_query_conflict_witness :
    lookupEntry (register_query initState "Q" "A" "d").2 "Q" =
      some ⟨"A", "d"⟩ ∧
    ("A" : String) ≠ "B" ∧
    (register_query (register_query initState "Q" "A" "d").2 "Q" "B" "d2" =
      (Except.error ("Query key \x27Q\x27 already registered with different SQL."),
        (register_query initState "Q" "A" "d").2) ∧
     lookupEntry
       (register_query (register_query initState "Q" "A" "d").2
         "Q" "B" "d2").2 "Q" = some ⟨"A", "d"⟩) :=
  ⟨by decide, by decide,
    register_query_conflict (register_query initState "Q" "A" "d").2
      "Q" "A" "B" "d" "d2" (by decide) (by decide)⟩

/-- Claim C6: calling `register_query` twice with the same key and
identical text (starting from any state whose registry dict exists, has
duplicate-free keys, and does not already bind `key` to a different text)
returns the text both times and leaves the registry with exactly one
binding for that key. -/
theorem register_query_idempotent (s : RegState) (key text desc : String)
    (hlen : 0 < s.dictHeap.length)
    (hnd : ((getDict s 0).map Prod.fst).Nodup)
    (hfree : ∀ e, lookupEntry s key = some e → e.sql = text) :
    (register_query s key text desc).1 = Except.ok text ∧
    (register_query (register_query s key text desc).2 key text desc).1 =
      Except.ok text ∧
    ((getDict (register_query (register_query s key text desc).2
        key text desc).2 0).map Prod.fst).count key = 1 := by
  have post1 := register_keys_count s key text desc hlen hnd hfree
  have hl1 := lookupEntry_after_register s key text desc hlen hfree
  have hfree1 : ∀ e, lookupEntry (register_query s key text desc).2 key =
      some e → e.sql = text := by
    intro e he
    rw [hl1] at he
    cases he
    rfl
  have post2 := register_keys_count (register_query s key text desc).2
    key text desc post1.2.2 post1.2.1 hfree1
  refine ⟨?_, ?_, post2.1⟩
  · rw [register_query_ok s key text desc hfree]
  · rw [register_query_ok (register_query s key text desc).2
      key text desc hfree1]

/-- Witness for C6: double registration of `k ↦ T` from the initial
state. -/
theorem register_query_idempotent_witness :
    0 < initState.dictHeap.length ∧
    ((getDict initState 0).map Prod.fst).Nodup ∧
    (∀ e, lookupEntry initState "k" = some e → e.sql = "T") ∧
    ((register_query initState "k" "T" "D").1 = Except.ok "T" ∧
     (register_query (register_query initState "k" "T" "D").2
        "k" "T" "D").1 = Except.ok "T" ∧
     ((getDict (register_query (register_query initState "k" "T" "D").2
        "k" "T" "D").2 0).map Prod.fst).count "k" = 1) :=
  ⟨by decide, by decide,
    (fun e he => by
      rw [show lookupEntry initState "k" = none from rfl] at he
      cases he),
    register_query_idempotent initState "k" "T" "D" (by decide) (by decide)
      (fun e he => by
        rw [show lookupEntry initState "k" = none from rfl] at he
        cases he)⟩

/-- Claim C7: for every event sequence containing no `error` event,
`_parse_agent_response` returns the concatenation of the payloads of all
`text` events in emission order, together with the payloads of all
`tool_result` and `analyst_result` events in emission order (the source
represents an empty side list as Python `None`:
`tool_results if tool_results else None`). -/
theorem parse_agent_response_no_error (es : List AgentEvent)
    (h : ∀ e ∈ es, e.event ≠ "error") :
    parse_agent_response (AgentValue.events es) =
      AgentResult.success (String.join (textPayloads es))
        (if (toolPayloads es).isEmpty then none
         else some (toolPayloads es)) := by
  unfold parse_agent_response
  dsimp only
  rw [parseEventsLoop_no_error es [] [] h]
  simp

/-- Witness for C7: a concrete error-free stream with interleaved text,
tool and unknown events. -/
theorem parse_agent_response_no_error_witness :
    (∀ e ∈ demoEvents, e.event ≠ "error") ∧
    parse_agent_response (AgentValue.events demoEvents) =
      AgentResult.success (String.join (textPayloads demoEvents))
        (if (toolPayloads demoEvents).isEmpty then none
         else some (toolPayloads demoEvents)) :=
  ⟨by decide, parse_agent_response_no_error demoEvents (by decide)⟩

/-- Claim C8: whenever the agent call fails (transport exception, non-200
status, or an error event in the response), `_handle_user_message` still
appends exactly two turns, and the assistant turn's content is the error
detail behind the distinguishable marker prefix `**Error:** `. -/
theorem handle_user_message_error_marker (env : ApiOutcome) (prompt : String)
    (thread : List Turn) (e : String)
    (h : query_agent env prompt = AgentResult.failure e) :
    handle_user_message env prompt thread =
      thread ++ [⟨"user", prompt⟩,
        ⟨"assistant", "**Error:** " ++ e⟩] := by
  unfold handle_user_message
  rw [h]
  rw [List.append_assoc]
  rfl

/-- Witness for C8: a transport exception (`Agent request failed: boom`)
surfaces as a marked assistant error turn and the thread grows by exactly
the two turns. -/
theorem handle_user_message_error_marker_witness :
    query_agent (ApiOutcome.exn "boom") "q" =
      AgentResult.failure "Agent request failed: boom" ∧
    handle_user_message (ApiOutcome.exn "boom") "q" [] =
      [⟨"user", "q"⟩,
       ⟨"assistant", "**Error:** Agent request failed: boom"⟩] :=
  ⟨rfl, handle_user_message_error_marker (ApiOutcome.exn "boom") "q" []
    "Agent request failed: boom" rfl⟩

/-- Counterexample to claim C9 as stated: `dict(_REGISTRY)` is a shallow
copy, so the per-key entry dicts are shared.  Concretely: after registering
`k ↦ {sql: A}`, mutating the entry reached through the snapshot returned by
`get_registry` (setting its `sql` to `B`) changes the registry's stored
text from `A` to `B` as observed by a subsequent registry read. -/
theorem get_registry_entry_alias :
    (let s1 := (register_query initState "k" "A" "d").2
     let snap := get_registry s1
     let ea := ((getDict snap.2 snap.1).lookup "k").getD 0
     lookupEntry s1 "k" = some ⟨"A", "d"⟩ ∧
     lookupEntry (setEntrySql snap.2 ea "B") "k" = some ⟨"B", "d"⟩) := by
  decide

/-- Claim C9 as amended: `get_registry` returns a fresh top-level dict
holding the same entry objects as the registry — rebinding a key on the
returned dict does not change the registry as observed by later reads, but
the per-key entry dicts are shared (so in-place entry mutation through the
returned value does reach the registry, as the counterexample shows). -/
theorem get_registry_shallow_snapshot (s : RegState)
    (hlen : 0 < s.dictHeap.length) (k : String) (a : Nat) (q : String) :
    getDict (get_registry s).2 (get_registry s).1 = getDict s 0 ∧
    lookupEntry (setDictKey (get_registry s).2 (get_registry s).1 k a) q =
      lookupEntry s q := by
  have hsnap : getDict (get_registry s).2 (get_registry s).1 =
      getDict s 0 := by
    unfold get_registry getDict
    dsimp only
    rw [List.get?_eq_getElem?, List.getElem?_concat_length]
    rfl
  refine ⟨hsnap, ?_⟩
  have hdict0 :
      getDict (setDictKey (get_registry s).2 (get_registry s).1 k a) 0 =
        getDict s 0 := by
    unfold setDictKey get_registry getDict
    dsimp only
    simp only [List.get?_eq_getElem?]
    rw [List.getElem?_set_ne (Nat.pos_iff_ne_zero.mp hlen)]
    rw [List.getElem?_append_left hlen]
  unfold lookupEntry
  rw [hdict0]
  cases (getDict s 0).lookup q with
  | none => rfl
  | some i => rfl

/-- Witness for C9 (amended) at the initial state. -/
theorem get_registry_shallow_snapshot_witness :
    0 < initState.dictHeap.length ∧
    (getDict (get_registry initState).2 (get_registry initState).1 =
      getDict initState 0 ∧
     lookupEntry
       (setDictKey (get_registry initState).2 (get_registry initState).1
         "x" 5) "x" = lookupEntry initState "x") :=
  ⟨by decide, get_registry_shallow_snapshot initState (by decide) "x" 5 "x"⟩

/-- Claim C10: if `key` is registered with text `T` and description `d1`,
re-registering it with the same text but a different description `d2`
succeeds, returns `T`, and silently replaces the stored description with
`d2`. -/
theorem register_query_replaces_description (s : RegState)
    (key T d1 d2 : String) (hlen : 0 < s.dictHeap.length)
    (hs : lookupEntry s key = some ⟨T, d1⟩) :
    (register_query s key T d2).1 = Except.ok T ∧
    lookupEntry (register_query s key T d2).2 key = some ⟨T, d2⟩ := by
  have hfree : ∀ e, lookupEntry s key = some e → e.sql = T := by
    intro e he
    rw [hs] at he
    cases he
    rfl
  exact ⟨by rw [register_query_ok s key T d2 hfree],
    lookupEntry_after_register s key T d2 hlen hfree⟩

/-- Witness for C10: `k ↦ (T, d1)` then `register(k, T, d2)` stores
`(T, d2)`. -/
theorem register_query_replaces_description_witness :
    0 < (register_query initState "k" "T" "d1").2.dictHeap.length ∧
    lookupEntry (register_query initState "k" "T" "d1").2 "k" =
      some ⟨"T", "d1"⟩ ∧
    ((register_query (register_query initState "k" "T" "d1").2
        "k" "T" "d2").1 = Except.ok "T" ∧
     lookupEntry (register_query (register_query initState "k" "T" "d1").2
        "k" "T" "d2").2 "k" = some ⟨"T", "d2"⟩) :=
  ⟨by decide, by decide,
    register_query_replaces_description
      (register_query initState "k" "T" "d1").2 "k" "T" "d1" "d2"
      (by decide) (by decide)⟩

end SnowCore
